import Mathlib

/-!
Shallow embedding of the taskflow execution core (executor subsystem,
task-action state machine, retry/decider framework, reflection helpers),
with theorems checking the natural-language specification against it.

Python effects are embedded as follows: a body that may raise is a value
of `Except Nat _` (exceptions identified by a numeric code), stateful
storage is explicit state passing over a `TaskStorage` record, and
observable side effects (hook invocations, state-change notifications,
progress pushes) are collected in explicit traces.
-/

namespace Taskflow

/-- Lifecycle state constants (external `taskflow.states` contract; the
spec fixes the literal names). -/
def PENDING : String := "PENDING"

def RUNNING : String := "RUNNING"

def SUCCESS : String := "SUCCESS"

def FAILURE : String := "FAILURE"

def REVERTING : String := "REVERTING"

def REVERTED : String := "REVERTED"

/-- Decision result constant from retry.py. -/
def REVERT : String := "REVERT"

/-- Decision result constant from retry.py. -/
def REVERT_ALL : String := "REVERT_ALL"

/-- Decision result constant from retry.py. -/
def RETRY : String := "RETRY"

/-- Execution outcome tag from executor.py (`EXECUTED = 'executed'`). -/
def EXECUTED : String := "executed"

/-- Reversion outcome tag from executor.py (`REVERTED = 'reverted'`). -/
def REVERTED_EVENT : String := "reverted"

/-! ## Retry / decider framework (retry.py) -/

/-- Modelled from the spec: `taskflow.exceptions.NotFound` is code of this
repository not under src/.  The spec treats it as a plain control-flow
signal ("signals a NotFound condition internally"), so it is a single
marker value here. -/
inductive RetryExc where
  | notFound
  deriving DecidableEq

/-- Modelled from the spec: `taskflow.utils.misc.sequence_minus` is code of
this repository not under src/.  The spec describes it as computing the
"remaining" values "by removing - in order, one-for-one - every value
already present as a prior history item (set-difference that preserves
multiplicity and original ordering of the remaining sequence)": for each
element of `seq2` in order, one matching occurrence is removed from the
accumulating result (a missing element removes nothing). -/
def sequence_minus {α : Type} [DecidableEq α] (seq1 seq2 : List α) : List α :=
  seq2.foldl (fun result item => result.erase item) seq1

namespace ForEachBase

/-- `ForEachBase._get_next_value` from retry.py: take the first elements of
the history pairs, remove them one-for-one from `values`, and return the
first remaining value, or raise NotFound when nothing remains. -/
def get_next_value {α β : Type} [DecidableEq α] (values : List α)
    (history : List (α × β)) : Except RetryExc α :=
  let items := history.map (fun p => p.1)
  let remaining := sequence_minus values items
  match remaining with
  | [] => Except.error RetryExc.notFound
  | v :: _ => Except.ok v

/-- `ForEachBase._on_failure` from retry.py: REVERT when `_get_next_value`
raises NotFound, RETRY otherwise. -/
def on_failure_impl {α β : Type} [DecidableEq α] (values : List α)
    (history : List (α × β)) : String :=
  match get_next_value values history with
  | Except.error RetryExc.notFound => REVERT
  | Except.ok _ => RETRY

end ForEachBase

/-- `ForEach` from retry.py: the candidate sequence is fixed at
construction time. -/
structure ForEach (α : Type) where
  values : List α

/-- `ForEach.on_failure` from retry.py. -/
def ForEach.on_failure {α β : Type} [DecidableEq α] (f : ForEach α)
    (history : List (α × β)) : String :=
  ForEachBase.on_failure_impl f.values history

/-- `ForEach.execute` from retry.py. -/
def ForEach.execute {α β : Type} [DecidableEq α] (f : ForEach α)
    (history : List (α × β)) : Except RetryExc α :=
  ForEachBase.get_next_value f.values history

namespace ParameterizedForEach

/-- `ParameterizedForEach.on_failure` from retry.py: the candidate
sequence is supplied at call time. -/
def on_failure {α β : Type} [DecidableEq α] (values : List α)
    (history : List (α × β)) : String :=
  ForEachBase.on_failure_impl values history

/-- `ParameterizedForEach.execute` from retry.py. -/
def execute {α β : Type} [DecidableEq α] (values : List α)
    (history : List (α × β)) : Except RetryExc α :=
  ForEachBase.get_next_value values history

end ParameterizedForEach

/-! ## Reflection utilities (reflection.py) -/

/-- The relevant part of a Python `inspect.getargspec` result: the declared
positional parameter names in declaration order, and how many of the
trailing ones carry default values. -/
structure ArgSpec where
  args : List String
  numDefaults : Nat
  deriving DecidableEq

/-- The shapes of callable that `_get_arg_spec` in reflection.py
distinguishes: a plain function, a method bound to an instance, an unbound
method (no instance, so `is_bound_method` is false), a class (inspected via
its initializer), and a general callable object (inspected via its call
operator, which is a method bound to the instance). -/
inductive Callable where
  | plainFunction (spec : ArgSpec)
  | boundMethod (spec : ArgSpec)
  | unboundMethod (spec : ArgSpec)
  | classType (initSpec : ArgSpec)
  | callableObject (callSpec : ArgSpec)
  deriving DecidableEq

/-- `_get_arg_spec` from reflection.py: returns the argspec of the callable
together with whether it is bound (a class is inspected via `__init__` with
`bound = True`; a function or method reports `is_bound_method`; any other
object is inspected via `__call__`, a method bound to the instance). -/
def get_arg_spec : Callable → ArgSpec × Bool
  | Callable.plainFunction s => (s, false)
  | Callable.boundMethod s => (s, true)
  | Callable.unboundMethod s => (s, false)
  | Callable.classType s => (s, true)
  | Callable.callableObject s => (s, true)

/-- `get_required_callable_args` from reflection.py: drop the trailing
defaulted parameters (only when there are any), then drop the leading
implicit self-like parameter when the callable is bound. -/
def get_required_callable_args (function : Callable) : List String :=
  let sb := get_arg_spec function
  let argspec := sb.1
  let bound := sb.2
  let f_args :=
    if argspec.numDefaults > 0 then
      argspec.args.take (argspec.args.length - argspec.numDefaults)
    else argspec.args
  if bound then f_args.drop 1 else f_args

/-! ## Task executor subsystem (executor.py) -/

/-- A stored or returned result: either a normal value or a Failure
wrapping the exception (identified by its numeric code) that was
raised. -/
inductive Outcome (V : Type) where
  | value (v : V)
  | failureOf (e : Nat)
  deriving DecidableEq

/-- The task lifecycle hooks observed by the `_execute_task`
embedding. -/
inductive Hook where
  | pre_execute
  | execute
  | post_execute
  deriving DecidableEq

/-- The behaviour of one task as seen by `_execute_task`: each hook either
returns or raises (`Except.error` carries the exception code); `execute`
receives the argument mapping. -/
structure ExecTask (A V : Type) where
  pre_execute : Except Nat Unit
  execute : A → Except Nat V
  post_execute : Except Nat Unit

/-- `_execute_task` from executor.py: run `pre_execute()` and then
`execute(**arguments)` inside a try whose except clause converts the
in-flight exception into a Failure result, with `post_execute()` in a
finally block (an exception it raises propagates, replacing the result).
Returns the Python outcome (`Except.error` when an exception propagates
out of the function) together with the ordered list of hooks that ran. -/
def executeTaskRun {A V : Type} (task : ExecTask A V) (arguments : A) :
    Except Nat (String × Outcome V) × List Hook :=
  match task.pre_execute with
  | Except.error e =>
      match task.post_execute with
      | Except.error e2 =>
          (Except.error e2, [Hook.pre_execute, Hook.post_execute])
      | Except.ok _ =>
          (Except.ok (EXECUTED, Outcome.failureOf e),
            [Hook.pre_execute, Hook.post_execute])
  | Except.ok _ =>
      match task.execute arguments with
      | Except.error e =>
          match task.post_execute with
          | Except.error e2 =>
              (Except.error e2, [Hook.pre_execute, Hook.execute, Hook.post_execute])
          | Except.ok _ =>
              (Except.ok (EXECUTED, Outcome.failureOf e),
                [Hook.pre_execute, Hook.execute, Hook.post_execute])
      | Except.ok v =>
          match task.post_execute with
          | Except.error e2 =>
              (Except.error e2, [Hook.pre_execute, Hook.execute, Hook.post_execute])
          | Except.ok _ =>
              (Except.ok (EXECUTED, Outcome.value v),
                [Hook.pre_execute, Hook.execute, Hook.post_execute])

/-- The lifecycle-relevant state of a `ParallelTaskExecutor`: the internal
pool reference (`self._executor`, pools named by numbers, `none` when
empty) and whether the pool is self-owned
(`self._own_executor = executor is None`). -/
structure ParallelExec where
  executor : Option Nat
  maxWorkers : Option Nat
  ownExecutor : Bool
  deriving DecidableEq

/-- `ParallelTaskExecutor.__init__` from executor.py. -/
def ParallelExec.init (executor : Option Nat) (maxWorkers : Option Nat) :
    ParallelExec :=
  { executor := executor, maxWorkers := maxWorkers,
    ownExecutor := executor.isNone }

/-- `ParallelTaskExecutor.start` from executor.py: when the pool is
self-owned, create one (`_create_executor`; the fresh pool is supplied as
a parameter, the worker-count computation is irrelevant here). -/
def ParallelExec.start (p : ParallelExec) (freshPool : Nat) : ParallelExec :=
  if p.ownExecutor then { p with executor := some freshPool } else p

/-- `ParallelTaskExecutor.stop` from executor.py: when the pool is
self-owned, call `self._executor.shutdown(wait=True)` and clear the
reference.  When the reference is empty (None), the attribute access on it
raises a Python AttributeError, modelled as `Except.error`.  The second
component of a normal return records which pool, if any, was shut down
waiting for in-flight work. -/
def ParallelExec.stop (p : ParallelExec) :
    Except String (ParallelExec × Option Nat) :=
  if p.ownExecutor then
    match p.executor with
    | none => Except.error "AttributeError"
    | some pool => Except.ok ({ p with executor := none }, some pool)
  else Except.ok (p, none)

/-- A task atom as the parallel executors see it: an identity and the
attached progress listeners. -/
structure PTask where
  tid : Nat
  listeners : List Nat
  deriving DecidableEq

/-- Modelled from the spec: `task.copy(retain_listeners=...)` belongs to
the task/atom contract (`taskflow.task`, not under src/); the spec
describes it as producing a clone of the task with its listeners
optionally dropped. -/
def PTask.copy (t : PTask) (retain_listeners : Bool) : PTask :=
  { tid := t.tid,
    listeners := if retain_listeners then t.listeners else [] }

/-- Which module-level function a future was submitted to run
(`_execute_task` or `_revert_task`). -/
inductive TaskFunc where
  | executeFunc
  | revertFunc
  deriving DecidableEq

/-- A future returned by `_submit_task`: the function and task actually
handed to the pool, the `progress_callback` keyword forwarded with them,
and the `atom` attribute tagged onto the future afterwards. -/
structure TaskFuture where
  func : TaskFunc
  submittedTask : PTask
  submittedCallback : Option Nat
  atom : PTask
  deriving DecidableEq

/-- `ParallelTaskExecutor._submit_task` from executor.py: submit the given
function and task with the keyword arguments as given, then tag the future
with the task. -/
def parallelSubmitTask (func : TaskFunc) (task : PTask)
    (progress_callback : Option Nat) : TaskFuture :=
  { func := func, submittedTask := task,
    submittedCallback := progress_callback, atom := task }

/-- `ParallelProcessTaskExecutor._submit_task` from executor.py: pop the
`progress_callback` keyword, clone the task with
`task.copy(retain_listeners=False)`, submit the clone through the base
implementation, then re-tag the future with the original task. -/
def processSubmitTask (func : TaskFunc) (task : PTask)
    (progress_callback : Option Nat) : TaskFuture :=
  let clone := task.copy false
  let fut := parallelSubmitTask func clone none
  { fut with atom := task }

/-- `ParallelTaskExecutor.execute_task` as specialized by the process
executor (`task_uuid` is accepted and unused). -/
def processExecuteTask (task : PTask) (task_uuid : Nat)
    (progress_callback : Option Nat) : TaskFuture :=
  processSubmitTask TaskFunc.executeFunc task progress_callback

/-- `ParallelTaskExecutor.revert_task` as specialized by the process
executor. -/
def processRevertTask (task : PTask) (task_uuid : Nat)
    (progress_callback : Option Nat) : TaskFuture :=
  processSubmitTask TaskFunc.revertFunc task progress_callback

/-! ## Task action state machine (task_action.py) -/

/-- `RESET_TASK_STATES` from task_action.py. -/
def RESET_TASK_STATES : List String := [PENDING]

/-- `SAVE_RESULT_STATES` from task_action.py. -/
def SAVE_RESULT_STATES : List String := [SUCCESS, FAILURE]

/-- `ALREADY_FINISHED_STATES` from task_action.py. -/
def ALREADY_FINISHED_STATES : List String := [SUCCESS]

/-- `NEVER_RAN_STATES` from task_action.py. -/
def NEVER_RAN_STATES : List String := [PENDING]

/-- The per-UUID storage view that a TaskAction manipulates: the persisted
task state, the persisted result (empty when reset or never saved), and
the persisted progress. -/
structure TaskStorage (V : Type) where
  state : String
  result : Option (Outcome V)
  progress : Option ℚ
  deriving DecidableEq

/-- Modelled from the spec: `storage.reset(uuid)` belongs to the storage
backend contract (not under src/); the spec says the PENDING transition
"triggers a storage reset of any retained result", so reset clears the
retained result. -/
def Storage.reset {V : Type} (s : TaskStorage V) : TaskStorage V :=
  { s with result := none }

/-- Modelled from the spec: `storage.save(uuid, result, state)` belongs to
the storage backend contract (not under src/); the spec says SUCCESS and
FAILURE "are the only states whose associated result value is persisted",
so save persists the given result value (the passed value, possibly the
empty None default) together with the state. -/
def Storage.save {V : Type} (s : TaskStorage V) (result : Option (Outcome V))
    (state : String) : TaskStorage V :=
  { s with state := state, result := result }

/-- Modelled from the spec: `storage.set_task_state(uuid, state)` belongs
to the storage backend contract (not under src/); it persists only the
state marker. -/
def Storage.set_task_state {V : Type} (s : TaskStorage V) (state : String) :
    TaskStorage V :=
  { s with state := state }

/-- Modelled from the spec: `storage.set_task_progress(uuid, progress)`
belongs to the storage backend contract (not under src/); it persists the
progress value. -/
def Storage.set_task_progress {V : Type} (s : TaskStorage V) (progress : ℚ) :
    TaskStorage V :=
  { s with progress := some progress }

/-- Observable side effects of a TaskAction run besides the storage
itself: the engine state-change notification (with its result argument),
the invocation of the task body (for revert, with the result value passed
to it), and the push of a progress value to the task object's own
tracker. -/
inductive TaskEv (V : Type) where
  | notify (state : String) (result : Option (Outcome V))
  | invokeExecute
  | invokeRevert (passed : Option (Outcome V))
  | taskProgress (p : ℚ)
  deriving DecidableEq

/-- `TaskAction._change_state` from task_action.py: reset storage for
RESET states, save result and state for SAVE_RESULT states and otherwise
set the state alone, set the progress when one is given, then notify the
engine of the state change. -/
def changeState {V : Type} (s : TaskStorage V) (state : String)
    (result : Option (Outcome V)) (progress : Option ℚ) :
    TaskStorage V × List (TaskEv V) :=
  let s1 := if state ∈ RESET_TASK_STATES then Storage.reset s else s
  let s2 :=
    if state ∈ SAVE_RESULT_STATES then Storage.save s1 result state
    else Storage.set_task_state s1 state
  let s3 :=
    match progress with
    | some p => Storage.set_task_progress s2 p
    | none => s2
  (s3, [TaskEv.notify state result])

/-- `TaskAction._force_state` from task_action.py: `_change_state` with
the given progress, then `task.update_progress(progress)`. -/
def forceState {V : Type} (s : TaskStorage V) (state : String) (progress : ℚ)
    (result : Option (Outcome V)) : TaskStorage V × List (TaskEv V) :=
  let r := changeState s state result (some progress)
  (r.1, r.2 ++ [TaskEv.taskProgress progress])

/-- `TaskAction.execute` from task_action.py, over the storage view: skip
when the stored state is already finished (SUCCESS); otherwise force
RUNNING at progress 0.0, run the task body (`Except.error e` when it
raises), on exception save the wrapping Failure with state FAILURE and
re-raise, and on success force SUCCESS at progress 1.0 with the produced
result.  Returns the final storage, the exception re-raised to the caller
(if any), and the ordered event trace. -/
def taskActionExecute {V : Type} (body : Except Nat V) (s : TaskStorage V) :
    TaskStorage V × Option Nat × List (TaskEv V) :=
  if s.state ∈ ALREADY_FINISHED_STATES then (s, none, [])
  else
    let r1 := forceState s RUNNING 0 none
    match body with
    | Except.error e =>
        let r2 := changeState r1.1 FAILURE (some (Outcome.failureOf e)) none
        (r2.1, some e, r1.2 ++ [TaskEv.invokeExecute] ++ r2.2)
    | Except.ok v =>
        let r2 := forceState r1.1 SUCCESS 1 (some (Outcome.value v))
        (r2.1, none, r1.2 ++ [TaskEv.invokeExecute] ++ r2.2)

/-- `TaskAction.revert` from task_action.py, over the storage view: skip
when the stored state is PENDING; otherwise force REVERTING at progress
0.0, invoke the task's revert passing the stored result (`storage.get`),
on exception persist FAILURE (with the default empty result argument)
inside `save_and_reraise_exception` and re-raise the original exception,
and on success force REVERTED at progress 1.0 and then PENDING at
progress 0.0. -/
def taskActionRevert {V : Type} (rbody : Option (Outcome V) → Except Nat Unit)
    (s : TaskStorage V) : TaskStorage V × Option Nat × List (TaskEv V) :=
  if s.state ∈ NEVER_RAN_STATES then (s, none, [])
  else
    let r1 := forceState s REVERTING 0 none
    let passed := r1.1.result
    match rbody passed with
    | Except.error e =>
        let r2 := changeState r1.1 FAILURE none none
        (r2.1, some e, r1.2 ++ [TaskEv.invokeRevert passed] ++ r2.2)
    | Except.ok _ =>
        let r2 := forceState r1.1 REVERTED 1 none
        let r3 := forceState r2.1 PENDING 0 none
        (r3.1, none, r1.2 ++ [TaskEv.invokeRevert passed] ++ r2.2 ++ r3.2)

/-- The states notified to the engine within a trace, in order. -/
def statesNotified {V : Type} : List (TaskEv V) → List String
  | [] => []
  | TaskEv.notify st _ :: rest => st :: statesNotified rest
  | _ :: rest => statesNotified rest

/-! ## Concrete inputs used in counterexamples and witnesses -/

/-- A task whose `pre_execute` raises exception 7 while its `execute`
would return 5 normally. -/
def preExecuteRaisesTask : ExecTask Nat Nat :=
  { pre_execute := Except.error 7, execute := fun _ => Except.ok 5,
    post_execute := Except.ok () }

/-- A task whose `execute` raises exception 3. -/
def executeRaisesTask : ExecTask Nat Nat :=
  { pre_execute := Except.ok (), execute := fun _ => Except.error 3,
    post_execute := Except.ok () }

/-- A pending storage view with no retained result. -/
def pendingStorage : TaskStorage Nat :=
  { state := PENDING, result := none, progress := none }

/-- A succeeded storage view retaining the result 5 at progress 1.0. -/
def succeededStorage : TaskStorage Nat :=
  { state := SUCCESS, result := some (Outcome.value 5), progress := some 1 }

/-- A revert body that always raises exception 3. -/
def revertRaises3 : Option (Outcome Nat) → Except Nat Unit :=
  fun _ => Except.error 3

/-- A revert body that always succeeds. -/
def revertOk : Option (Outcome Nat) → Except Nat Unit :=
  fun _ => Except.ok ()

end Taskflow

namespace Taskflow

/-! ## Claim theorems for the retry framework and reflection -/

/-- The remaining sequence is a sublist of the original candidate values:
removal preserves the original order of the surviving elements. -/
theorem sequence_minus_sublist {α : Type} [DecidableEq α] (seq2 seq1 : List α) :
    (sequence_minus seq1 seq2).Sublist seq1 := by
  induction seq2 generalizing seq1 with
  | nil => exact List.Sublist.refl seq1
  | cons a rest ih =>
      have h1 : sequence_minus seq1 (a :: rest) = sequence_minus (seq1.erase a) rest := rfl
      rw [h1]
      exact (ih (seq1.erase a)).trans (List.erase_sublist a seq1)

/-- `_get_next_value` stated through the remaining sequence. -/
theorem get_next_value_eq {α β : Type} [DecidableEq α] (values : List α)
    (history : List (α × β)) :
    ForEachBase.get_next_value values history =
      (match sequence_minus values (history.map (fun p => p.1)) with
        | [] => Except.error RetryExc.notFound
        | v :: _ => Except.ok v) := rfl

/-- `_on_failure` stated through the remaining sequence. -/
theorem on_failure_impl_eq {α β : Type} [DecidableEq α] (values : List α)
    (history : List (α × β)) :
    ForEachBase.on_failure_impl values history =
      (if sequence_minus values (history.map (fun p => p.1)) = []
        then REVERT else RETRY) := by
  unfold ForEachBase.on_failure_impl
  rw [get_next_value_eq]
  cases sequence_minus values (history.map (fun p => p.1)) with
  | nil => simp
  | cons a l => simp

/-- C8: for every ForEach retry with candidate values (and every
ParameterizedForEach with caller-supplied values) and every history, the
remaining values are `sequence_minus values (history results)` - an
order-preserving one-for-one removal whose output is a sublist of the
candidates; `on_failure` returns RETRY exactly when something remains and
REVERT exactly when nothing remains, and when something remains `execute`
returns the first remaining value. -/
theorem forEach_on_failure_execute_correct {α β : Type} [DecidableEq α]
    (values : List α) (history : List (α × β)) :
    ((ForEach.mk values).on_failure history = RETRY ↔
        sequence_minus values (history.map (fun p => p.1)) ≠ []) ∧
    ((ForEach.mk values).on_failure history = REVERT ↔
        sequence_minus values (history.map (fun p => p.1)) = []) ∧
    (∀ v rest, sequence_minus values (history.map (fun p => p.1)) = v :: rest →
        (ForEach.mk values).execute history = Except.ok v) ∧
    (sequence_minus values (history.map (fun p => p.1))).Sublist values ∧
    ParameterizedForEach.on_failure values history =
        (ForEach.mk values).on_failure history ∧
    ParameterizedForEach.execute values history =
        (ForEach.mk values).execute history := by
  have hd : (REVERT : String) ≠ RETRY := by decide
  have hf : (ForEach.mk values).on_failure history =
      (if sequence_minus values (history.map (fun p => p.1)) = []
        then REVERT else RETRY) := on_failure_impl_eq values history
  refine ⟨?_, ?_, ?_, sequence_minus_sublist _ _, rfl, rfl⟩
  · by_cases hr : sequence_minus values (history.map (fun p => p.1)) = []
    · rw [hf, if_pos hr]
      exact ⟨fun h => absurd h hd, fun h => absurd hr h⟩
    · rw [hf, if_neg hr]
      exact ⟨fun _ => hr, fun _ => rfl⟩
  · by_cases hr : sequence_minus values (history.map (fun p => p.1)) = []
    · rw [hf, if_pos hr]
      exact ⟨fun _ => hr, fun _ => rfl⟩
    · rw [hf, if_neg hr]
      exact ⟨fun h => absurd h.symm hd, fun h => absurd h hr⟩
  · intro v rest hvr
    show ForEachBase.get_next_value values history = Except.ok v
    rw [get_next_value_eq, hvr]

/-- C8 witness: `ForEach [1,2,3]` with history `[(1, 0)]` decides RETRY and
executes to `2`; with history covering all three values it decides
REVERT. -/
theorem forEach_on_failure_execute_correct_witness :
    (ForEach.mk [1, 2, 3]).on_failure [(1, 0)] = RETRY ∧
    (ForEach.mk [1, 2, 3]).execute [(1, 0)] = Except.ok 2 ∧
    (ForEach.mk [1, 2, 3]).on_failure [(3, 0), (1, 0), (2, 0)] = REVERT := by
  refine ⟨?_, ?_, ?_⟩
  · exact (forEach_on_failure_execute_correct [1, 2, 3] [(1, 0)]).1.mpr (by decide)
  · exact (forEach_on_failure_execute_correct [1, 2, 3] [(1, 0)]).2.2.1 2 [3]
      (by decide)
  · exact (forEach_on_failure_execute_correct [1, 2, 3]
      [(3, 0), (1, 0), (2, 0)]).2.1.mpr (by decide)

/-- C10: `execute` raises NotFound exactly when no candidate value remains,
and returns normally exactly when `on_failure` on the same values and
history returns RETRY (for both ForEach and ParameterizedForEach). -/
theorem forEach_execute_notFound_iff {α β : Type} [DecidableEq α]
    (values : List α) (history : List (α × β)) :
    ((ForEach.mk values).execute history = Except.error RetryExc.notFound ↔
        sequence_minus values (history.map (fun p => p.1)) = []) ∧
    ((∃ v, (ForEach.mk values).execute history = Except.ok v) ↔
        (ForEach.mk values).on_failure history = RETRY) ∧
    (ParameterizedForEach.execute values history = Except.error RetryExc.notFound ↔
        ParameterizedForEach.on_failure values history = REVERT) ∧
    ((∃ v, ParameterizedForEach.execute values history = Except.ok v) ↔
        ParameterizedForEach.on_failure values history = RETRY) := by
  have hd : (REVERT : String) ≠ RETRY := by decide
  have hf : (ForEach.mk values).on_failure history =
      (if sequence_minus values (history.map (fun p => p.1)) = []
        then REVERT else RETRY) := on_failure_impl_eq values history
  have hpe : ParameterizedForEach.execute values history =
      (ForEach.mk values).execute history := rfl
  have hpf : ParameterizedForEach.on_failure values history =
      (ForEach.mk values).on_failure history := rfl
  rw [hpe, hpf]
  by_cases hr : sequence_minus values (history.map (fun p => p.1)) = []
  · have he : (ForEach.mk values).execute history = Except.error RetryExc.notFound := by
      show ForEachBase.get_next_value values history = Except.error RetryExc.notFound
      rw [get_next_value_eq, hr]
    rw [hf, if_pos hr, he]
    refine ⟨⟨fun _ => hr, fun _ => rfl⟩, ?_, ⟨fun _ => rfl, fun _ => rfl⟩, ?_⟩ <;>
      exact ⟨fun h => absurd h.choose_spec (by simp), fun h => absurd h hd⟩
  · obtain ⟨v0, rest0, hsm⟩ :
        ∃ v0 rest0, sequence_minus values (history.map (fun p => p.1)) = v0 :: rest0 := by
      cases hsm2 : sequence_minus values (history.map (fun p => p.1)) with
      | nil => exact absurd hsm2 hr
      | cons a l => exact ⟨a, l, rfl⟩
    have he : (ForEach.mk values).execute history = Except.ok v0 := by
      show ForEachBase.get_next_value values history = Except.ok v0
      rw [get_next_value_eq, hsm]
    rw [hf, if_neg hr, he]
    refine ⟨?_, ?_, ?_, ?_⟩
    · exact ⟨fun h => absurd h (by simp), fun h => absurd h hr⟩
    · exact ⟨fun _ => rfl, fun _ => ⟨v0, rfl⟩⟩
    · exact ⟨fun h => absurd h (by simp), fun h => absurd h.symm hd⟩
    · exact ⟨fun _ => rfl, fun _ => ⟨v0, rfl⟩⟩

/-- C10 witness: with all of `[1,2,3]` already in the history, `execute`
raises NotFound; with history `[(1, 0)]` it returns normally and
`on_failure` decides RETRY. -/
theorem forEach_execute_notFound_iff_witness :
    (ForEach.mk [1, 2, 3]).execute [(2, 0), (3, 0), (1, 0)] =
        Except.error RetryExc.notFound ∧
    (ForEach.mk [1, 2, 3]).on_failure [(1, 0)] = RETRY := by
  refine ⟨?_, ?_⟩
  · exact (forEach_execute_notFound_iff [1, 2, 3]
      [(2, 0), (3, 0), (1, 0)]).1.mpr (by decide)
  · exact (forEach_execute_notFound_iff [1, 2, 3] [(1, 0)]).2.1.mp ⟨2, rfl⟩

/-- C9: on a plain function `get_required_callable_args` returns, in
declaration order, the positional parameter names without defaults (the
first `length - numDefaults` of them; `(a, b, c=1)` yields `["a","b"]`);
on a bound method, a class and a callable object it additionally strips
the leading implicit self-like parameter. -/
theorem get_required_callable_args_correct (args : List String) (d : Nat) :
    get_required_callable_args (Callable.plainFunction ⟨args, d⟩) =
        args.take (args.length - d) ∧
    get_required_callable_args (Callable.boundMethod ⟨args, d⟩) =
        (args.take (args.length - d)).drop 1 ∧
    get_required_callable_args (Callable.classType ⟨args, d⟩) =
        (args.take (args.length - d)).drop 1 ∧
    get_required_callable_args (Callable.callableObject ⟨args, d⟩) =
        (args.take (args.length - d)).drop 1 ∧
    get_required_callable_args
        (Callable.plainFunction ⟨["a", "b", "c"], 1⟩) = ["a", "b"] := by
  cases d with
  | zero => simp [get_required_callable_args, get_arg_spec, List.take_length]
  | succ k => simp [get_required_callable_args, get_arg_spec]

/-! ## Claim theorems for the executor subsystem -/

/-- C1 counterexample: on a task whose `pre_execute` raises 7 (while its
`execute` would return 5), `_execute_task` returns
`("executed", Failure 7)` with `execute` never invoked - a Failure result
produced from an exception that `execute` did not raise, and not the value
`execute` returns on success, contrary to the claim that only exceptions
raised by `execute` are converted into a Failure result. -/
theorem executeTask_pre_execute_exception_becomes_failure :
    (executeTaskRun preExecuteRaisesTask 0).1 =
        Except.ok (EXECUTED, Outcome.failureOf 7) ∧
    preExecuteRaisesTask.execute 0 = Except.ok 5 ∧
    Hook.execute ∉ (executeTaskRun preExecuteRaisesTask 0).2 := by
  refine ⟨rfl, rfl, ?_⟩
  decide

/-- C1 (amended): `_execute_task` always runs `post_execute`; an exception
propagates out only when `post_execute` raised it; when `pre_execute` and
`execute` succeed and `post_execute` returns, the result is
`("executed", value)`; when `execute` raises (after `pre_execute`
succeeded) the exception is converted into a Failure result instead of
propagating; and when `pre_execute` raises, that exception is likewise
converted into a Failure result, with `execute` never invoked. -/
theorem executeTask_behavior {A V : Type} (task : ExecTask A V)
    (arguments : A) :
    Hook.post_execute ∈ (executeTaskRun task arguments).2 ∧
    (∀ e, (executeTaskRun task arguments).1 = Except.error e →
        task.post_execute = Except.error e) ∧
    (∀ v, task.pre_execute = Except.ok () →
        task.execute arguments = Except.ok v →
        task.post_execute = Except.ok () →
        (executeTaskRun task arguments).1 =
          Except.ok (EXECUTED, Outcome.value v)) ∧
    (∀ e, task.pre_execute = Except.ok () →
        task.execute arguments = Except.error e →
        task.post_execute = Except.ok () →
        (executeTaskRun task arguments).1 =
          Except.ok (EXECUTED, Outcome.failureOf e)) ∧
    (∀ e, task.pre_execute = Except.error e →
        task.post_execute = Except.ok () →
        (executeTaskRun task arguments).1 =
            Except.ok (EXECUTED, Outcome.failureOf e) ∧
        Hook.execute ∉ (executeTaskRun task arguments).2) := by
  cases hpre : task.pre_execute with
  | error e0 =>
      cases hpost : task.post_execute <;>
        simp [executeTaskRun, hpre, hpost]
  | ok u =>
      cases hexec : task.execute arguments with
      | error e0 =>
          cases hpost : task.post_execute <;>
            simp [executeTaskRun, hpre, hexec, hpost]
      | ok v0 =>
          cases hpost : task.post_execute <;>
            simp [executeTaskRun, hpre, hexec, hpost]

/-- C1 witness: on the concrete task whose `execute` raises 3, the
exception is converted into the Failure result. -/
theorem executeTask_behavior_witness :
    (executeTaskRun executeRaisesTask 0).1 =
        Except.ok (EXECUTED, Outcome.failureOf 3) :=
  (executeTask_behavior executeRaisesTask 0).2.2.2.1 3 rfl rfl rfl

/-- C6: the code contradicts the claim - on a self-owned pool
(`ParallelTaskExecutor` built with no external executor), `stop()` before
any `start()` calls `shutdown` on the empty pool reference and raises
(Python AttributeError), and after `start()` followed by `stop()` a second
`stop()` raises the same way; only stopping a started self-owned pool
shuts it down waiting and clears the reference, and an externally supplied
pool is indeed never shut down. -/
theorem parallelExecutor_stop_not_idempotent :
    (ParallelExec.init none none).stop = Except.error "AttributeError" ∧
    ((ParallelExec.init none none).start 1).stop =
        Except.ok
          ({ executor := none, maxWorkers := none, ownExecutor := true },
            some 1) ∧
    (((ParallelExec.init none none).start 1).stop.bind
        fun r => r.1.stop) = Except.error "AttributeError" ∧
    (ParallelExec.init (some 5) none).stop =
        Except.ok (ParallelExec.init (some 5) none, none) :=
  ⟨rfl, rfl, rfl, rfl⟩

/-- C7: every submission through the process executor (execute or revert)
hands the pool the clone `task.copy(retain_listeners=False)` (listeners
stripped but identity kept), discards any supplied progress callback
before dispatch, and tags the returned future's `atom` attribute with the
original, pre-clone task. -/
theorem processExecutor_submits_stripped_clone (task : PTask)
    (task_uuid : Nat) (progress_callback : Option Nat) :
    processExecuteTask task task_uuid progress_callback =
      { func := TaskFunc.executeFunc, submittedTask := task.copy false,
        submittedCallback := none, atom := task } ∧
    processRevertTask task task_uuid progress_callback =
      { func := TaskFunc.revertFunc, submittedTask := task.copy false,
        submittedCallback := none, atom := task } ∧
    (processExecuteTask task task_uuid progress_callback).submittedTask.listeners
        = [] ∧
    (processExecuteTask task task_uuid progress_callback).submittedTask.tid
        = task.tid :=
  ⟨rfl, rfl, rfl, rfl⟩

/-! ## Claim theorems for the task action state machine -/

/-- C2: when the stored state is not SUCCESS and the task body raises `e`,
`TaskAction.execute` persists state FAILURE with the wrapping Failure as
the stored result and re-raises `e` (it never returns normally); the full
run is the RUNNING transition at progress 0.0, the body invocation, then
the FAILURE save - the SUCCESS transition is never reached. -/
theorem taskActionExecute_failure {V : Type} (body : Except Nat V)
    (s : TaskStorage V) (e : Nat) (hs : s.state ≠ SUCCESS)
    (hb : body = Except.error e) :
    (taskActionExecute body s).1 =
      { state := FAILURE, result := some (Outcome.failureOf e),
        progress := some 0 } ∧
    (taskActionExecute body s).2.1 = some e ∧
    (taskActionExecute body s).2.2 =
      [TaskEv.notify RUNNING none, TaskEv.taskProgress 0,
        TaskEv.invokeExecute,
        TaskEv.notify FAILURE (some (Outcome.failureOf e))] ∧
    SUCCESS ∉ statesNotified (taskActionExecute body s).2.2 := by
  have hmem : s.state ∉ ALREADY_FINISHED_STATES := by
    simp [ALREADY_FINISHED_STATES]
    exact hs
  have h1 : RUNNING ∉ RESET_TASK_STATES := by decide
  have h2 : RUNNING ∉ SAVE_RESULT_STATES := by decide
  have h3 : FAILURE ∉ RESET_TASK_STATES := by decide
  have h4 : FAILURE ∈ SAVE_RESULT_STATES := by decide
  have h5 : SUCCESS ≠ RUNNING := by decide
  have h6 : SUCCESS ≠ FAILURE := by decide
  subst hb
  simp [taskActionExecute, hmem, forceState, changeState, Storage.reset,
    Storage.save, Storage.set_task_state, Storage.set_task_progress,
    h1, h2, h3, h4, h5, h6, statesNotified]

/-- C2 witness: executing a pending task whose body raises 3 ends in
FAILURE storing the Failure, and re-raises 3. -/
theorem taskActionExecute_failure_witness :
    (taskActionExecute (Except.error 3 : Except Nat Nat) pendingStorage).1 =
      { state := FAILURE, result := some (Outcome.failureOf 3),
        progress := some 0 } ∧
    (taskActionExecute (Except.error 3 : Except Nat Nat) pendingStorage).2.1 =
      some 3 :=
  ⟨(taskActionExecute_failure (Except.error 3) pendingStorage 3
      (by decide) rfl).1,
   (taskActionExecute_failure (Except.error 3) pendingStorage 3
      (by decide) rfl).2.1⟩

/-- C5: on stored state SUCCESS, `TaskAction.execute` is a no-op: the
storage view (state, result, progress) is returned unchanged, nothing is
raised, and no event occurs - in particular the task's execute is never
invoked. -/
theorem taskActionExecute_skips_finished {V : Type} (body : Except Nat V)
    (s : TaskStorage V) (hs : s.state = SUCCESS) :
    taskActionExecute body s = (s, none, []) := by
  have hmem : s.state ∈ ALREADY_FINISHED_STATES := by
    simp [ALREADY_FINISHED_STATES, hs]
  simp [taskActionExecute, hmem]

/-- C5 witness: executing an already-succeeded task changes nothing. -/
theorem taskActionExecute_skips_finished_witness :
    taskActionExecute (Except.ok 9 : Except Nat Nat) succeededStorage =
      (succeededStorage, none, []) :=
  taskActionExecute_skips_finished (Except.ok 9) succeededStorage rfl

/-- C3: `TaskAction.revert` on stored state PENDING is a no-op without
invoking the task's revert; on any other stored state, when the task's
revert succeeds, the run forces REVERTING at progress 0.0, invokes the
revert passing the previously stored result, forces REVERTED at progress
1.0, then forces PENDING at progress 0.0, whose reset clears the retained
result. -/
theorem taskActionRevert_success {V : Type}
    (rbody : Option (Outcome V) → Except Nat Unit) (s : TaskStorage V) :
    (s.state = PENDING → taskActionRevert rbody s = (s, none, [])) ∧
    (s.state ≠ PENDING → rbody s.result = Except.ok () →
      (taskActionRevert rbody s).1 =
        { state := PENDING, result := none, progress := some 0 } ∧
      (taskActionRevert rbody s).2.1 = none ∧
      (taskActionRevert rbody s).2.2 =
        [TaskEv.notify REVERTING none, TaskEv.taskProgress 0,
          TaskEv.invokeRevert s.result, TaskEv.notify REVERTED none,
          TaskEv.taskProgress 1, TaskEv.notify PENDING none,
          TaskEv.taskProgress 0]) := by
  have h1 : REVERTING ∉ RESET_TASK_STATES := by decide
  have h2 : REVERTING ∉ SAVE_RESULT_STATES := by decide
  have h3 : REVERTED ∉ RESET_TASK_STATES := by decide
  have h4 : REVERTED ∉ SAVE_RESULT_STATES := by decide
  have h5 : PENDING ∈ RESET_TASK_STATES := by decide
  have h6 : PENDING ∉ SAVE_RESULT_STATES := by decide
  constructor
  · intro hs
    have hmem : s.state ∈ NEVER_RAN_STATES := by
      simp [NEVER_RAN_STATES, hs]
    simp [taskActionRevert, hmem]
  · intro hs hb
    have hmem : s.state ∉ NEVER_RAN_STATES := by
      simp [NEVER_RAN_STATES]
      exact hs
    simp [taskActionRevert, hmem, forceState, changeState, Storage.reset,
      Storage.save, Storage.set_task_state, Storage.set_task_progress,
      h1, h2, h3, h4, h5, h6, hb]

/-- C3 witness: reverting a pending task is a no-op, and reverting a
succeeded task with a succeeding revert body ends reset to PENDING at
progress 0.0 with the result cleared. -/
theorem taskActionRevert_success_witness :
    taskActionRevert revertOk pendingStorage = (pendingStorage, none, []) ∧
    (taskActionRevert revertOk succeededStorage).1 =
      { state := PENDING, result := none, progress := some 0 } ∧
    (taskActionRevert revertOk succeededStorage).2.2 =
      [TaskEv.notify REVERTING none, TaskEv.taskProgress 0,
        TaskEv.invokeRevert (some (Outcome.value 5)),
        TaskEv.notify REVERTED none, TaskEv.taskProgress 1,
        TaskEv.notify PENDING none, TaskEv.taskProgress 0] :=
  ⟨(taskActionRevert_success revertOk pendingStorage).1 rfl,
   ((taskActionRevert_success revertOk succeededStorage).2 (by decide) rfl).1,
   ((taskActionRevert_success revertOk succeededStorage).2 (by decide) rfl).2.2⟩

/-- C4 counterexample: reverting the succeeded storage (stored result 5)
with a revert body that raises 3 ends with state FAILURE but with the
stored result cleared to the empty result rather than left as 5: the
FAILURE transition runs `storage.save(uuid, None, FAILURE)` with the
default empty result argument, which overwrites the retained result. -/
theorem taskActionRevert_overwrites_result :
    succeededStorage.result = some (Outcome.value 5) ∧
    (taskActionRevert revertRaises3 succeededStorage).1.state = FAILURE ∧
    (taskActionRevert revertRaises3 succeededStorage).1.result = none ∧
    (taskActionRevert revertRaises3 succeededStorage).2.1 = some 3 := by
  refine ⟨rfl, ?_, ?_, ?_⟩ <;> decide

/-- C4 (amended): when the stored state is not PENDING and the task's
revert body raises `e`, `TaskAction.revert` persists state FAILURE with
the stored result overwritten by the empty (None) result, and re-raises
the original exception `e` after the state-persistence side effect: the
run is REVERTING at progress 0.0, the revert invocation with the
previously stored result, then the FAILURE persistence, then the
re-raise. -/
theorem taskActionRevert_failure {V : Type}
    (rbody : Option (Outcome V) → Except Nat Unit) (s : TaskStorage V)
    (e : Nat) (hs : s.state ≠ PENDING)
    (hb : rbody s.result = Except.error e) :
    (taskActionRevert rbody s).1 =
      { state := FAILURE, result := none, progress := some 0 } ∧
    (taskActionRevert rbody s).2.1 = some e ∧
    (taskActionRevert rbody s).2.2 =
      [TaskEv.notify REVERTING none, TaskEv.taskProgress 0,
        TaskEv.invokeRevert s.result, TaskEv.notify FAILURE none] := by
  have h1 : REVERTING ∉ RESET_TASK_STATES := by decide
  have h2 : REVERTING ∉ SAVE_RESULT_STATES := by decide
  have h3 : FAILURE ∉ RESET_TASK_STATES := by decide
  have h4 : FAILURE ∈ SAVE_RESULT_STATES := by decide
  have hmem : s.state ∉ NEVER_RAN_STATES := by
    simp [NEVER_RAN_STATES]
    exact hs
  simp [taskActionRevert, hmem, forceState, changeState, Storage.reset,
    Storage.save, Storage.set_task_state, Storage.set_task_progress,
    h1, h2, h3, h4, hb]

/-- C4 witness: the amended behaviour at the concrete failing revert. -/
theorem taskActionRevert_failure_witness :
    (taskActionRevert revertRaises3 succeededStorage).1 =
      { state := FAILURE, result := none, progress := some 0 } ∧
    (taskActionRevert revertRaises3 succeededStorage).2.1 = some 3 :=
  ⟨(taskActionRevert_failure revertRaises3 succeededStorage 3
      (by decide) rfl).1,
   (taskActionRevert_failure revertRaises3 succeededStorage 3
      (by decide) rfl).2.1⟩

end Taskflow
